import Mathlib

/-!
Shallow embedding of the zero2prod newsletter service (Rust) and proofs about it.

Conventions used throughout:
- Rust `Result<T, E>` becomes `Except E T`; `Option<T>` becomes `Option T`.
- Database rows are modelled as Lean structures; a Postgres database is a `Db`
  record of row lists.  SQL statements become pure functions on `Db`.
- Fallible external effects (connection pool, SQL statement execution, the
  outbound HTTP stack, base64 decoding, Argon2 verification) are modelled by
  explicit oracle parameters, so that every failure path of the source is
  reachable in the model.
- `Uuid::new_v4()` and `Utc::now()` are modelled by explicit `Nat` arguments.
- Grapheme segmentation (the `unicode_segmentation` crate) is modelled by an
  abstract `gcount : String → Nat` parameter; the validator-crate email
  grammar is modelled by an abstract `emailOk : String → Bool` parameter.
-/

namespace Zero2Prod

/-- Forbidden characters of `SubscriberName::parse` (src/src/domain.rs line 16). -/
def forbidden_characters : List Char :=
  ['/', '(', ')', '"', '<', '>', '\\', '\x7b', '\x7d']

/-- Rust `str::trim` on the character list: drop whitespace from both ends. -/
def trimChars (l : List Char) : List Char :=
  ((l.dropWhile Char.isWhitespace).reverse.dropWhile Char.isWhitespace).reverse

/-- Wrapper type mirroring `pub struct SubscriberName(String)` (src/src/domain.rs). -/
structure SubscriberName where
  raw : String
deriving Repr, DecidableEq

/-- Mirror of `impl AsRef<str> for SubscriberName` (src/src/domain.rs lines 27-31). -/
def SubscriberName.as_ref (n : SubscriberName) : String := n.raw

/-- Mirror of `SubscriberName::parse` (src/src/domain.rs lines 9-24).
`gcount` abstracts `s.graphemes(true).count()` from the external
`unicode_segmentation` crate; `s.trim().is_empty()` and the
`s.chars().any(..)` scan are written over the character list. -/
def SubscriberName.parse (gcount : String → Nat) (s : String) :
    Except String SubscriberName :=
  let is_empty_or_whitespace := (trimChars s.data).isEmpty
  let is_too_long := decide (256 < gcount s)
  let contains_forbidden_characters := s.data.any (fun c => forbidden_characters.contains c)
  if is_empty_or_whitespace || is_too_long || contains_forbidden_characters then
    Except.error (s ++ " is not a valid subscriber name.")
  else
    Except.ok ⟨s⟩

/-- Mirror of `NewSubscriber` (src/src/domain/new_subscriber.rs lines 5-8).
The `SubscriberEmail` wrapper only gives read access to its string, so the
email field is modelled directly by the validated string. -/
structure NewSubscriber where
  email : String
  name : SubscriberName
deriving Repr, DecidableEq

/-- Mirror of `TryFrom<SubscriberData> for NewSubscriber`
(src/src/domain/new_subscriber.rs lines 10-18): parse the name, then the email.
`emailOk` abstracts `SubscriberEmail::parse` (the validator-crate grammar;
the file defining it is absent from the snapshot, its contract per the spec is
"fails iff the string does not match a standard email-address grammar"). -/
def NewSubscriber.try_from (gcount : String → Nat) (emailOk : String → Bool)
    (data_email data_name : String) : Except String NewSubscriber :=
  match SubscriberName.parse gcount data_name with
  | Except.error e => Except.error e
  | Except.ok name =>
    if emailOk data_email then Except.ok ⟨data_email, name⟩
    else Except.error (data_email ++ " is not a valid subscriber email.")

/-- Row of the `subscriptions` table (see the INSERT in src/src/routes/subscriptions.rs
lines 102-112); `subscribed_at` is a model timestamp. -/
structure SubscriptionRow where
  id : Nat
  email : String
  name : String
  subscribed_at : Nat
  status : String
deriving Repr, DecidableEq

/-- The relational store: the two tables the subscription workflow touches.
A `subscription_tokens` row is a pair (subscription_token, subscriber_id). -/
structure Db where
  subscriptions : List SubscriptionRow
  subscription_tokens : List (String × Nat)
deriving Repr, DecidableEq

/-- Mirror of `insert_subscriber` (src/src/routes/subscriptions.rs lines 97-120):
INSERT a row with status `pending_confirmation`.  The generated `Uuid::new_v4()`
and `Utc::now()` are the explicit `subscriber_id` and `now` arguments. -/
def insert_subscriber (db : Db) (subscriber_id : Nat) (email name : String)
    (now : Nat) : Db :=
  { db with subscriptions :=
      db.subscriptions ++ [⟨subscriber_id, email, name, now, "pending_confirmation"⟩] }

/-- Mirror of `store_token` (src/src/routes/subscriptions.rs lines 134-151):
INSERT a (subscription_token, subscriber_id) row. -/
def store_token (db : Db) (subscription_token : String) (subscriber_id : Nat) : Db :=
  { db with subscription_tokens :=
      db.subscription_tokens ++ [(subscription_token, subscriber_id)] }

/-- Mirror of `SubscribeError` (src/src/routes/subscriptions.rs lines 155-169). -/
inductive SubscribeError where
  | ValidationError (msg : String)
  | StoreTokenError
  | SendEmailError
  | PoolError
  | InsertSubscriberError
  | TransactionCommitError
deriving Repr, DecidableEq

/-- Outcomes of the five fallible effects of `subscribe`: `pool.begin()`, the
subscriber INSERT, the token INSERT, `transaction.commit()` and
`send_confirmation_email`.  Each `false` models the corresponding sqlx or
reqwest call returning `Err`. -/
structure SubscribeOracle where
  begin_ok : Bool
  insert_ok : Bool
  store_ok : Bool
  commit_ok : Bool
  send_ok : Bool
deriving Repr, DecidableEq

/-- Mirror of `subscribe` (src/src/routes/subscriptions.rs lines 28-58).
Statements executed inside the open transaction act on a local copy of the
database; only a successful `commit` publishes it (Postgres transaction
semantics).  On any earlier failure the transaction is dropped and the stored
state is unchanged.  Returns the handler result and the persisted database. -/
def subscribe (gcount : String → Nat) (emailOk : String → Bool)
    (o : SubscribeOracle) (db : Db) (form_email form_name : String)
    (subscriber_id : Nat) (subscription_token : String) (now : Nat) :
    Except SubscribeError Unit × Db :=
  match NewSubscriber.try_from gcount emailOk form_email form_name with
  | Except.error e => (Except.error (SubscribeError.ValidationError e), db)
  | Except.ok new_subscriber =>
    if !o.begin_ok then (Except.error SubscribeError.PoolError, db)
    else if !o.insert_ok then (Except.error SubscribeError.InsertSubscriberError, db)
    else
      let txn1 := insert_subscriber db subscriber_id new_subscriber.email
        new_subscriber.name.as_ref now
      if !o.store_ok then (Except.error SubscribeError.StoreTokenError, db)
      else
        let txn2 := store_token txn1 subscription_token subscriber_id
        if !o.commit_ok then (Except.error SubscribeError.TransactionCommitError, db)
        else if !o.send_ok then (Except.error SubscribeError.SendEmailError, txn2)
        else (Except.ok (), txn2)

/-- Outcomes of the two fallible SQL statements of the confirm handler:
the token SELECT and the status UPDATE. -/
structure ConfirmOracle where
  lookup_ok : Bool
  update_ok : Bool
deriving Repr, DecidableEq

/-- Mirror of `get_subscriber_id_from_token`
(src/src/routes/subscriptions_confirm.rs lines 28-44): SELECT subscriber_id
FROM subscription_tokens WHERE subscription_token = $1, `fetch_optional`. -/
def get_subscriber_id_from_token (db : Db) (subscription_token : String) :
    Option Nat :=
  (db.subscription_tokens.find? (fun p => p.1 == subscription_token)).map
    (fun p => p.2)

/-- Mirror of `confirm_subscriber` (src/src/routes/subscriptions_confirm.rs
lines 47-59): UPDATE subscriptions SET status = confirmed WHERE id = $1.
The UPDATE succeeds (affecting zero rows) even when no row matches. -/
def confirm_subscriber (db : Db) (subscriber_id : Nat) : Db :=
  let set_confirmed := fun (r : SubscriptionRow) =>
    if r.id == subscriber_id then { r with status := "confirmed" } else r
  { db with subscriptions := db.subscriptions.map set_confirmed }

/-- Mirror of the `confirm` handler (src/src/routes/subscriptions_confirm.rs
lines 12-25), returning the HTTP status and the resulting database.
The `query = none` branch is modelled from the spec: actix-web rejects a
request whose query string fails to deserialize into `Parameters`
(missing/malformed `subscription_token`) with 400 before the handler runs. -/
def confirm (o : ConfirmOracle) (db : Db) (query : Option String) : Nat × Db :=
  match query with
  | none => (400, db)
  | some subscription_token =>
    if !o.lookup_ok then (500, db)
    else
      match get_subscriber_id_from_token db subscription_token with
      | none => (401, db)
      | some subscriber_id =>
        if !o.update_ok then (500, db)
        else (200, confirm_subscriber db subscriber_id)

/-- Status lookup for a subscriber id (first row with that id, as a SQL
query by primary key would return). -/
def statusOf (db : Db) (id : Nat) : Option String :=
  (db.subscriptions.find? (fun r => r.id == id)).map SubscriptionRow.status

/-- An operation of the subscription workflow state machine: one `subscribe`
request or one `confirm` request, with its effect oracles. -/
inductive Op where
  | subscribeOp (o : SubscribeOracle) (form_email form_name : String)
      (subscriber_id : Nat) (subscription_token : String) (now : Nat)
  | confirmOp (o : ConfirmOracle) (query : Option String)
deriving Repr

/-- Database effect of one operation. -/
def applyOp (gcount : String → Nat) (emailOk : String → Bool) (db : Db) :
    Op → Db
  | Op.subscribeOp o fe fn sid tok now =>
    (subscribe gcount emailOk o db fe fn sid tok now).2
  | Op.confirmOp o q => (confirm o db q).2

/-- Mirror of `SendEmailRequest` (src/src/email_client.rs lines 12-25): the
JSON payload field names are the serde-renamed PascalCase ones. -/
structure SendEmailRequest where
  From : String
  To : String
  Subject : String
  TextBody : String
  HtmlBody : String
deriving Repr, DecidableEq

/-- Mirror of `EmailClient` (src/src/email_client.rs lines 5-10); the reqwest
client is represented by its configured timeout (milliseconds). -/
structure EmailClient where
  base_url : String
  sender : String
  authorization_token : String
  timeout_ms : Nat
deriving Repr, DecidableEq

/-- The outbound POST issued by `send_email`: URL, the
`X-Postmark-Server-Token` header value, and the JSON body. -/
structure HttpRequest where
  url : String
  server_token : String
  body : SendEmailRequest
deriving Repr, DecidableEq

/-- Outcome of `.send().await` on the request: either an HTTP response with a
status code, or a transport-level failure (connection error, or expiry of the
configured timeout - reqwest surfaces both as `Err` from `send`). -/
inductive HttpOutcome where
  | response (status : Nat)
  | sendFailure
deriving Repr, DecidableEq

/-- Mirror of `EmailClient::send_email` (src/src/email_client.rs lines 46-73).
Builds the request (third argument `text_content` becomes `TextBody`, fourth
argument `html_content` becomes `HtmlBody`), posts it through the network
oracle `net`, then applies `error_for_status`, which per reqwest (and the
source comment on line 70) errors exactly when the status code is >= 400.
Returns the issued request and the result. -/
def EmailClient.send_email (c : EmailClient) (net : HttpRequest → HttpOutcome)
    (subscriber_email subject text_content html_content : String) :
    HttpRequest × Except String Unit :=
  let url := c.base_url ++ "/email"
  let request_body : SendEmailRequest :=
    { From := c.sender, To := subscriber_email, Subject := subject,
      TextBody := text_content, HtmlBody := html_content }
  let req : HttpRequest :=
    { url := url, server_token := c.authorization_token, body := request_body }
  match net req with
  | HttpOutcome.sendFailure => (req, Except.error "failed to send request")
  | HttpOutcome.response status =>
    if 400 ≤ status then (req, Except.error "error status code")
    else (req, Except.ok ())

/-- Mirror of `Credentials` (src/src/routes/newsletters.rs lines 24-29). -/
structure Credentials where
  username : String
  password : String
deriving Repr, DecidableEq

/-- Rust `s.splitn(2, sep)` on a character list: the piece before the first
separator, and (when a separator occurs) the whole remainder after it. -/
def splitn2Chars (sep : Char) : List Char → List Char × Option (List Char)
  | [] => ([], none)
  | x :: xs =>
    if x == sep then ([], some xs)
    else
      let p := splitn2Chars sep xs
      (x :: p.1, p.2)

/-- Rust `str::strip_prefix` on character lists: the remainder after the
pattern, when the pattern is a prefix. -/
def stripPrefixChars : List Char → List Char → Option (List Char)
  | [], s => some s
  | _ :: _, [] => none
  | p :: ps, c :: cs => if c == p then stripPrefixChars ps cs else none

/-- Mirror of `basic_authentication` (src/src/routes/newsletters.rs lines
31-56).  The header is modelled as `Option String` (a `None` models a missing
header; the `to_str` UTF-8 check is subsumed, Lean strings being valid
unicode).  `b64decode` abstracts `base64::decode` composed with
`String::from_utf8`; `none` models failure of either. -/
def basic_authentication (b64decode : String → Option String)
    (authorization : Option String) : Except String Credentials :=
  match authorization with
  | none => Except.error "The Authorization header is missing."
  | some header_value =>
    match stripPrefixChars "Basic ".data header_value.data with
    | none => Except.error "The authentication scheme is not Basic."
    | some base64encoded_segment =>
      match b64decode (String.mk base64encoded_segment) with
      | none => Except.error "Failed to base64-decode Basic credentials."
      | some decoded_credentials =>
        match splitn2Chars ':' decoded_credentials.data with
        | (_, none) => Except.error "A password must be provided in Basic auth."
        | (u, some p) => Except.ok { username := String.mk u, password := String.mk p }

/-- Mirror of `PublishError` (src/src/routes/newsletters.rs lines 217-224). -/
inductive PublishError where
  | AuthError (msg : String)
  | UnexpectedError (msg : String)
deriving Repr, DecidableEq

/-- Mirror of `PublishError::error_response` (src/src/routes/newsletters.rs
lines 232-247), as (status code, response headers). -/
def PublishError.error_response : PublishError → Nat × List (String × String)
  | PublishError.UnexpectedError _ => (500, [])
  | PublishError.AuthError _ =>
    (401, [("WWW-Authenticate", "Basic realm=\"publish\"")])

/-- Oracles for the authentication collaborators of the publish handler:
the users-table SELECT (keyed by username), `PasswordHash::new` on the stored
PHC string, `Argon2::verify_password` (phc, candidate), and the
`spawn_blocking` join. -/
structure AuthEnv where
  stored_credentials : String → Except String (Option (Nat × String))
  phc_parse_ok : String → Bool
  verify : String → String → Bool
  spawn_ok : Bool

/-- Mirror of `verify_password_hash` (src/src/routes/newsletters.rs lines
89-102): a malformed stored PHC string is an `UnexpectedError`; a
verification mismatch is an `AuthError`. -/
def verify_password_hash (env : AuthEnv)
    (expected_password_hash_phc password_candidate : String) :
    Except PublishError Unit :=
  if !env.phc_parse_ok expected_password_hash_phc then
    Except.error (PublishError.UnexpectedError "Failed to parse hash in PHC string format")
  else if env.verify expected_password_hash_phc password_candidate then Except.ok ()
  else Except.error (PublishError.AuthError "Invalid password")

/-- Mirror of `validate_credentials` (src/src/routes/newsletters.rs lines
59-83): unknown username is an `AuthError`, a storage error or a failed
blocking-task join is an `UnexpectedError`, then the hash is verified. -/
def validate_credentials (env : AuthEnv) (credentials : Credentials) :
    Except PublishError Nat :=
  match env.stored_credentials credentials.username with
  | Except.error e => Except.error (PublishError.UnexpectedError e)
  | Except.ok none => Except.error (PublishError.AuthError "Unknown username.")
  | Except.ok (some (user_id, expected_password_hash_phc)) =>
    if !env.spawn_ok then
      Except.error (PublishError.UnexpectedError "failed to spawn blocking task.")
    else
      match verify_password_hash env expected_password_hash_phc
          credentials.password with
      | Except.error e => Except.error e
      | Except.ok _ => Except.ok user_id

/-- Mirror of `Content` (src/src/routes/newsletters.rs lines 18-22). -/
structure Content where
  html : String
  text : String
deriving Repr, DecidableEq

/-- Mirror of `BodyData` (src/src/routes/newsletters.rs lines 12-16). -/
structure BodyData where
  title : String
  content : Content
deriving Repr, DecidableEq

/-- Mirror of `get_confirmed_subscribers` (src/src/routes/newsletters.rs lines
178-215): SELECT email FROM subscriptions WHERE status = confirmed, each row's
email re-parsed (`emailOk` abstracts `SubscriberEmail::parse`). -/
def get_confirmed_subscribers (emailOk : String → Bool) (db : Db) :
    List (Except String String) :=
  (db.subscriptions.filter (fun r => r.status == "confirmed")).map
    (fun r => if emailOk r.email then Except.ok r.email else Except.error r.email)

/-- Mirror of the send loop of `publish_newsletter`
(src/src/routes/newsletters.rs lines 145-169).  An `Err` row is skipped with a
warning; a send failure aborts the whole batch with an `UnexpectedError`
(the `with_context(..)?` wraps the reqwest error into `anyhow::Error`, which
`From`-converts to `PublishError::UnexpectedError`).  The call passes
`body.content.html` as `send_email`'s third argument and `body.content.text`
as its fourth, exactly as the source does on lines 148-154.  Returns the
result and the list of issued requests. -/
def send_newsletter_issues (c : EmailClient) (net : HttpRequest → HttpOutcome)
    (body : BodyData) : List (Except String String) →
    Except PublishError Unit × List HttpRequest
  | [] => (Except.ok (), [])
  | Except.error _ :: subscribers => send_newsletter_issues c net body subscribers
  | Except.ok email :: subscribers =>
    match c.send_email net email body.title body.content.html body.content.text with
    | (req, Except.error _) =>
      (Except.error (PublishError.UnexpectedError
        ("Failed to send newsletter issue to " ++ email)), [req])
    | (req, Except.ok _) =>
      let rest := send_newsletter_issues c net body subscribers
      (rest.1, req :: rest.2)

/-- Mirror of `publish_newsletter` (src/src/routes/newsletters.rs lines
133-171): basic auth (failure wrapped by `map_err(PublishError::AuthError)`),
credential validation, then the fan-out loop over confirmed subscribers. -/
def publish_newsletter (env : AuthEnv) (emailOk : String → Bool)
    (c : EmailClient) (net : HttpRequest → HttpOutcome) (db : Db)
    (b64decode : String → Option String) (authorization : Option String)
    (body : BodyData) : Except PublishError Unit × List HttpRequest :=
  match basic_authentication b64decode authorization with
  | Except.error e => (Except.error (PublishError.AuthError e), [])
  | Except.ok credentials =>
    match validate_credentials env credentials with
    | Except.error e => (Except.error e, [])
    | Except.ok _user_id =>
      send_newsletter_issues c net body (get_confirmed_subscribers emailOk db)

/-- A 257-character input whose trimmed form has only 256 characters: 256
copies of `a` followed by one space. -/
def name257sp : String := String.mk (List.replicate 256 'a' ++ [' '])

/-- Concrete database with one confirmed subscriber and its token. -/
def dbConfirmed : Db := ⟨[⟨1, "a@b.example", "n", 0, "confirmed"⟩], [("t", 1)]⟩

/-- Concrete database with one pending subscriber and its token. -/
def dbOne : Db :=
  ⟨[⟨1, "ursula_le_guin@gmail.com", "le guin", 0, "pending_confirmation"⟩], [("tok1", 1)]⟩

/-- Concrete database holding a token whose subscriber id has no
subscriptions row. -/
def dbDangling : Db := ⟨[], [("tok7", 7)]⟩

/-- Concrete email client configuration for the concrete evaluations. -/
def exClient : EmailClient :=
  ⟨"https://postmark.example", "news@example.com", "server-token", 10000⟩

/-- Authentication oracles accepting every credential pair. -/
def envAccept : AuthEnv :=
  ⟨fun _ => Except.ok (some (42, "phc")), fun _ => true, fun _ _ => true, true⟩

/-- Authentication oracles with an empty users table. -/
def envNoUser : AuthEnv :=
  ⟨fun _ => Except.ok none, fun _ => true, fun _ _ => true, true⟩

/-- Concrete newsletter body whose html and text contents differ. -/
def exBody : BodyData := ⟨"Issue One", ⟨"<p>Hello</p>", "Hello"⟩⟩

/-- Base64 decoding oracle mapping every input to the credentials bob:pw. -/
def exB64 : String → Option String := fun _ => some "bob:pw"

/- ===== Theorems ===== -/

/-- Auxiliary: `find?` commutes with a `map` that leaves the predicate
unchanged. -/
theorem find?_map_of_pred_invariant {α : Type} (f : α → α) (p : α → Bool)
    (hp : ∀ r, p (f r) = p r) (l : List α) :
    (l.map f).find? p = (l.find? p).map f := by
  induction l with
  | nil => rfl
  | cons a l ih =>
    cases hpa : p a
    · rw [List.map_cons, List.find?_cons_of_neg _ (by simp [hp, hpa]),
        List.find?_cons_of_neg _ (by simp [hpa]), ih]
    · rw [List.map_cons, List.find?_cons_of_pos _ (by simp [hp, hpa]),
        List.find?_cons_of_pos _ hpa, Option.map_some']

/-- Auxiliary: the update of `confirm_subscriber` preserves every row id, so
for any id the status either is untouched or becomes `confirmed` (and in the
latter case the row existed before). -/
theorem statusOf_confirm_subscriber_cases (db : Db) (idu id : Nat) :
    statusOf (confirm_subscriber db idu) id = statusOf db id ∨
    (statusOf db id ≠ none ∧
      statusOf (confirm_subscriber db idu) id = some "confirmed") := by
  have hp : ∀ r : SubscriptionRow,
      (((if r.id == idu then { r with status := "confirmed" } else r) : SubscriptionRow).id == id)
        = (r.id == id) := by
    intro r
    by_cases h : (r.id == idu) = true <;> simp [h]
  simp only [statusOf, confirm_subscriber]
  rw [find?_map_of_pred_invariant _ _ hp]
  cases hf : db.subscriptions.find? (fun r => r.id == id) with
  | none => left; rfl
  | some r =>
    by_cases hr : r.id = idu
    · right
      constructor
      · simp
      · simp [hr]
    · left
      simp [hr]

/-- Auxiliary: confirming an id that has a subscriptions row sets that row's
status to `confirmed`. -/
theorem statusOf_confirm_subscriber_self (db : Db) (id : Nat)
    (h : statusOf db id ≠ none) :
    statusOf (confirm_subscriber db id) id = some "confirmed" := by
  have hp : ∀ r : SubscriptionRow,
      (((if r.id == id then { r with status := "confirmed" } else r) : SubscriptionRow).id == id)
        = (r.id == id) := by
    intro r
    by_cases hx : (r.id == id) = true <;> simp [hx]
  simp only [statusOf, confirm_subscriber] at h ⊢
  rw [find?_map_of_pred_invariant _ _ hp]
  cases hf : db.subscriptions.find? (fun r => r.id == id) with
  | none => rw [hf] at h; simp at h
  | some r =>
    have hr := List.find?_some hf
    have hr2 : r.id = id := by simpa using hr
    simp [hr2]

/-- Auxiliary: re-applying the confirm UPDATE to the same id is the identity
on the updated rows. -/
theorem map_confirm_idem (id : Nat) (l : List SubscriptionRow) :
    (l.map (fun r => if r.id == id then { r with status := "confirmed" } else r)).map
        (fun r => if r.id == id then { r with status := "confirmed" } else r)
      = l.map (fun r => if r.id == id then { r with status := "confirmed" } else r) := by
  induction l with
  | nil => rfl
  | cons a l ih =>
    simp only [List.map_cons]
    rw [ih]
    by_cases ha : a.id = id
    · congr 1
      simp [ha]
    · congr 1
      simp [ha]

/-- Auxiliary: `confirm_subscriber` is idempotent. -/
theorem confirm_subscriber_idem (db : Db) (id : Nat) :
    confirm_subscriber (confirm_subscriber db id) id = confirm_subscriber db id := by
  simp only [confirm_subscriber]
  rw [map_confirm_idem]

/-- Auxiliary: the confirm UPDATE over rows none of which match is the
identity. -/
theorem map_confirm_no_match (id : Nat) (l : List SubscriptionRow)
    (h : ∀ r ∈ l, (r.id == id) = false) :
    l.map (fun r => if r.id == id then { r with status := "confirmed" } else r) = l := by
  induction l with
  | nil => rfl
  | cons a l ih =>
    have ha := h a (by simp)
    simp only [List.map_cons, ha]
    rw [ih (fun r hr => h r (by simp [hr]))]
    simp

/-- Auxiliary: a successful parse wraps the raw input unchanged. -/
theorem parse_ok_raw (gcount : String → Nat) (s : String) (n : SubscriberName)
    (h : SubscriberName.parse gcount s = Except.ok n) : n.raw = s := by
  simp only [SubscriberName.parse] at h
  split at h
  · cases h
  · cases h
    rfl

/-- Auxiliary: inversion of a successful `NewSubscriber::try_from`: the
validated fields read back the raw form data unchanged. -/
theorem try_from_ok_inv (gcount : String → Nat) (emailOk : String → Bool)
    (fe fn : String) (ns : NewSubscriber)
    (h : NewSubscriber.try_from gcount emailOk fe fn = Except.ok ns) :
    ns.email = fe ∧ ns.name.as_ref = fn := by
  simp only [NewSubscriber.try_from] at h
  cases hp : SubscriberName.parse gcount fn with
  | error e => simp [hp] at h
  | ok name =>
    simp only [hp] at h
    by_cases hemail : emailOk fe = true
    · rw [if_pos hemail] at h
      cases h
      exact ⟨rfl, parse_ok_raw gcount fn name hp⟩
    · rw [if_neg hemail] at h
      cases h

/-- C2: the Subscriber row and its SubscriptionToken row are persisted
together or not at all: both rows appear exactly when every step up to and
including the commit succeeds; a failing subscriber INSERT, token INSERT or
commit returns `InsertSubscriberError`, `StoreTokenError` or
`TransactionCommitError` respectively and persists nothing. -/
theorem subscribe_transactional (gcount : String → Nat) (emailOk : String → Bool)
    (o : SubscribeOracle) (db : Db) (fe fn : String) (sid : Nat) (tok : String)
    (now : Nat) :
    ((NewSubscriber.try_from gcount emailOk fe fn).isOk = true ∧ o.begin_ok = true ∧
        o.insert_ok = true ∧ o.store_ok = true ∧ o.commit_ok = true →
      (subscribe gcount emailOk o db fe fn sid tok now).2
        = store_token (insert_subscriber db sid fe fn now) tok sid) ∧
    (¬((NewSubscriber.try_from gcount emailOk fe fn).isOk = true ∧ o.begin_ok = true ∧
        o.insert_ok = true ∧ o.store_ok = true ∧ o.commit_ok = true) →
      (subscribe gcount emailOk o db fe fn sid tok now).2 = db) ∧
    ((NewSubscriber.try_from gcount emailOk fe fn).isOk = true → o.begin_ok = true →
      o.insert_ok = false →
      (subscribe gcount emailOk o db fe fn sid tok now).1
        = Except.error SubscribeError.InsertSubscriberError) ∧
    ((NewSubscriber.try_from gcount emailOk fe fn).isOk = true → o.begin_ok = true →
      o.insert_ok = true → o.store_ok = false →
      (subscribe gcount emailOk o db fe fn sid tok now).1
        = Except.error SubscribeError.StoreTokenError) ∧
    ((NewSubscriber.try_from gcount emailOk fe fn).isOk = true → o.begin_ok = true →
      o.insert_ok = true → o.store_ok = true → o.commit_ok = false →
      (subscribe gcount emailOk o db fe fn sid tok now).1
        = Except.error SubscribeError.TransactionCommitError) := by
  obtain ⟨b1, b2, b3, b4, b5⟩ := o
  cases hp : NewSubscriber.try_from gcount emailOk fe fn with
  | error e =>
    cases b1 <;> cases b2 <;> cases b3 <;> cases b4 <;> cases b5 <;>
      simp [subscribe, hp, Except.isOk, Except.toBool]
  | ok ns =>
    obtain ⟨he, hn⟩ := try_from_ok_inv gcount emailOk fe fn ns hp
    cases b1 <;> cases b2 <;> cases b3 <;> cases b4 <;> cases b5 <;>
      simp [subscribe, hp, Except.isOk, Except.toBool, he, hn]

/-- Witness for C2: at a concrete input with a failing commit, subscribe
reports `TransactionCommitError` and the database is unchanged. -/
theorem subscribe_transactional_witness :
    (NewSubscriber.try_from String.length (fun _ => true)
        "ursula_le_guin@gmail.com" "le guin").isOk = true ∧
    (subscribe String.length (fun _ => true) ⟨true, true, true, false, true⟩
        ⟨[], []⟩ "ursula_le_guin@gmail.com" "le guin" 1 "tok" 0).1
      = Except.error SubscribeError.TransactionCommitError ∧
    (subscribe String.length (fun _ => true) ⟨true, true, true, false, true⟩
        ⟨[], []⟩ "ursula_le_guin@gmail.com" "le guin" 1 "tok" 0).2 = (⟨[], []⟩ : Db) :=
  ⟨by decide,
   (subscribe_transactional String.length (fun _ => true) ⟨true, true, true, false, true⟩
      ⟨[], []⟩ "ursula_le_guin@gmail.com" "le guin" 1 "tok" 0).2.2.2.2
     (by decide) rfl rfl rfl rfl,
   (subscribe_transactional String.length (fun _ => true) ⟨true, true, true, false, true⟩
      ⟨[], []⟩ "ursula_le_guin@gmail.com" "le guin" 1 "tok" 0).2.1
     (by decide)⟩

/-- Auxiliary: a subscribe call either leaves the database unchanged or
appends exactly one pending subscriptions row and one token row. -/
theorem subscribe_db_cases (gcount : String → Nat) (emailOk : String → Bool)
    (o : SubscribeOracle) (db : Db) (fe fn : String) (sid : Nat) (tok : String)
    (now : Nat) :
    (subscribe gcount emailOk o db fe fn sid tok now).2 = db ∨
    ∃ e n, (subscribe gcount emailOk o db fe fn sid tok now).2
      = store_token (insert_subscriber db sid e n now) tok sid := by
  obtain ⟨b1, b2, b3, b4, b5⟩ := o
  cases hp : NewSubscriber.try_from gcount emailOk fe fn with
  | error e => left; simp [subscribe, hp]
  | ok ns =>
    cases b1 with
    | false => left; simp [subscribe, hp]
    | true =>
      cases b2 with
      | false => left; simp [subscribe, hp]
      | true =>
        cases b3 with
        | false => left; simp [subscribe, hp]
        | true =>
          cases b4 with
          | false => left; simp [subscribe, hp]
          | true =>
            cases b5 with
            | false =>
              right
              exact ⟨ns.email, ns.name.as_ref, by simp [subscribe, hp]⟩
            | true =>
              right
              exact ⟨ns.email, ns.name.as_ref, by simp [subscribe, hp]⟩

/-- Auxiliary: effect of a subscriber INSERT on the status of any id: either
unchanged (the first matching row is unaffected by the append), or the id was
absent and the appended row carries status `pending_confirmation`. -/
theorem statusOf_insert_subscriber (db : Db) (sid : Nat) (e n : String)
    (now : Nat) (id : Nat) :
    statusOf (insert_subscriber db sid e n now) id = statusOf db id ∨
    (statusOf db id = none ∧
      statusOf (insert_subscriber db sid e n now) id = some "pending_confirmation") := by
  simp only [statusOf, insert_subscriber]
  rw [List.find?_append]
  cases hf : db.subscriptions.find? (fun r => r.id == id) with
  | some r => left; simp [Option.or]
  | none =>
    by_cases hs : sid = id
    · right
      refine ⟨rfl, ?_⟩
      simp [Option.or, List.find?, hs]
    · left
      have hb : (sid == id) = false := by simp [hs]
      simp [Option.or, List.find?, hb]

/-- Auxiliary: the token INSERT does not touch the subscriptions table. -/
theorem statusOf_store_token (db : Db) (tok : String) (sid : Nat) (id : Nat) :
    statusOf (store_token db tok sid) id = statusOf db id := rfl

/-- Auxiliary: a confirm call either leaves the database unchanged or applies
the confirm UPDATE for some subscriber id. -/
theorem confirm_db_cases (o : ConfirmOracle) (db : Db) (q : Option String) :
    (confirm o db q).2 = db ∨
    ∃ idu, (confirm o db q).2 = confirm_subscriber db idu := by
  obtain ⟨lok, uok⟩ := o
  cases q with
  | none => left; rfl
  | some t =>
    cases lok with
    | false => left; simp [confirm]
    | true =>
      cases hl : get_subscriber_id_from_token db t with
      | none => left; simp [confirm, hl]
      | some idu =>
        cases uok with
        | false => left; simp [confirm, hl]
        | true =>
          right
          exact ⟨idu, by simp [confirm, hl]⟩

/-- C6: every Subscriber row is created with status `pending_confirmation`,
and under any subscribe or confirm operation a subscriber's status value is
either carried over or one of the two literals, a newly visible row is
`pending_confirmation`, and a `confirmed` status is never reverted
(monotonic `pending_confirmation → confirmed`). -/
theorem status_transitions (gcount : String → Nat) (emailOk : String → Bool)
    (db : Db) (op : Op) (id : Nat) :
    (∀ s, statusOf (applyOp gcount emailOk db op) id = some s →
        statusOf db id = some s ∨ s = "pending_confirmation" ∨ s = "confirmed") ∧
    (statusOf db id = none → ∀ s,
        statusOf (applyOp gcount emailOk db op) id = some s →
        s = "pending_confirmation") ∧
    (statusOf db id = some "confirmed" →
        statusOf (applyOp gcount emailOk db op) id = some "confirmed") := by
  cases op with
  | subscribeOp o fe fn sid tok now =>
    simp only [applyOp]
    rcases subscribe_db_cases gcount emailOk o db fe fn sid tok now with hdb | ⟨e, n, hdb⟩
    · rw [hdb]
      refine ⟨fun s hs => Or.inl hs, fun hnone s hs => ?_, fun hc => hc⟩
      rw [hnone] at hs
      cases hs
    · rw [hdb, statusOf_store_token]
      rcases statusOf_insert_subscriber db sid e n now id with hth | ⟨hnone, hth⟩
      · rw [hth]
        refine ⟨fun s hs => Or.inl hs, fun hnone s hs => ?_, fun hc => hc⟩
        rw [hnone] at hs
        cases hs
      · rw [hth]
        refine ⟨fun s hs => ?_, fun _ s hs => ?_, fun hc => ?_⟩
        · cases hs
          exact Or.inr (Or.inl rfl)
        · cases hs
          rfl
        · rw [hnone] at hc
          cases hc
  | confirmOp o q =>
    simp only [applyOp]
    rcases confirm_db_cases o db q with hdb | ⟨idu, hdb⟩
    · rw [hdb]
      refine ⟨fun s hs => Or.inl hs, fun hnone s hs => ?_, fun hc => hc⟩
      rw [hnone] at hs
      cases hs
    · rw [hdb]
      rcases statusOf_confirm_subscriber_cases db idu id with hth | ⟨hne, hth⟩
      · rw [hth]
        refine ⟨fun s hs => Or.inl hs, fun hnone s hs => ?_, fun hc => hc⟩
        rw [hnone] at hs
        cases hs
      · rw [hth]
        refine ⟨fun s hs => ?_, fun hnone s hs => ?_, fun _ => rfl⟩
        · cases hs
          exact Or.inr (Or.inr rfl)
        · exact absurd hnone hne

/-- Witness for C6: a confirmed subscriber stays confirmed across a concrete
successful subscribe operation that appends a new pending row. -/
theorem status_transitions_witness :
    statusOf dbConfirmed 1 = some "confirmed" ∧
      statusOf (applyOp String.length (fun _ => true) dbConfirmed
          (Op.subscribeOp ⟨true, true, true, true, true⟩ "x@y.example" "nm" 2 "t2" 5)) 1
        = some "confirmed" :=
  ⟨by decide, (status_transitions String.length (fun _ => true) dbConfirmed
      (Op.subscribeOp ⟨true, true, true, true, true⟩ "x@y.example" "nm" 2 "t2" 5) 1).2.2
    (by decide)⟩

/-- C4: the confirm operation maps outcomes to HTTP statuses exactly as the
spec's table says: missing `subscription_token` → 400; token not found in the
token table → 401; storage error during the lookup or the update → 500;
otherwise → 200. -/
theorem confirm_status_mapping (o : ConfirmOracle) (db : Db) (q : Option String) :
    ((confirm o db q).1 = 400 ↔ q = none) ∧
    ((confirm o db q).1 = 401 ↔ ∃ t, q = some t ∧ o.lookup_ok = true ∧
        get_subscriber_id_from_token db t = none) ∧
    ((confirm o db q).1 = 500 ↔ ∃ t, q = some t ∧ (o.lookup_ok = false ∨
        (∃ id, get_subscriber_id_from_token db t = some id ∧ o.update_ok = false))) ∧
    ((confirm o db q).1 = 200 ↔ ∃ t id, q = some t ∧ o.lookup_ok = true ∧
        get_subscriber_id_from_token db t = some id ∧ o.update_ok = true) := by
  obtain ⟨lok, uok⟩ := o
  cases q with
  | none => simp [confirm]
  | some t =>
    cases lok <;> cases uok <;>
      cases hl : get_subscriber_id_from_token db t <;>
        simp [confirm, hl]

/-- C5: confirm is idempotent: when the token maps to an existing subscriber,
a second invocation after a successful first one returns 200 again, performs
the same update (the database is unchanged by the repetition), and leaves the
subscriber's status equal to `confirmed`. -/
theorem confirm_idempotent (db : Db) (tok : String) (id : Nat)
    (hl : get_subscriber_id_from_token db tok = some id)
    (hex : statusOf db id ≠ none) :
    (confirm ⟨true, true⟩ db (some tok)).1 = 200 ∧
    (confirm ⟨true, true⟩ (confirm ⟨true, true⟩ db (some tok)).2 (some tok)).1 = 200 ∧
    (confirm ⟨true, true⟩ (confirm ⟨true, true⟩ db (some tok)).2 (some tok)).2
      = (confirm ⟨true, true⟩ db (some tok)).2 ∧
    statusOf (confirm ⟨true, true⟩ (confirm ⟨true, true⟩ db (some tok)).2 (some tok)).2 id
      = some "confirmed" := by
  have hl2 : get_subscriber_id_from_token (confirm_subscriber db id) tok = some id := hl
  have e1 : confirm ⟨true, true⟩ db (some tok) = (200, confirm_subscriber db id) := by
    simp [confirm, hl]
  have e2 : confirm ⟨true, true⟩ (confirm_subscriber db id) (some tok)
      = (200, confirm_subscriber (confirm_subscriber db id) id) := by
    simp [confirm, hl2]
  refine ⟨by simp [e1], by simp [e1, e2], ?_, ?_⟩
  · simp [e1, e2, confirm_subscriber_idem]
  · simp only [e1, e2]
    rw [confirm_subscriber_idem]
    exact statusOf_confirm_subscriber_self db id hex

/-- Witness for C5 at the concrete one-subscriber database `dbOne`. -/
theorem confirm_idempotent_witness :
    get_subscriber_id_from_token dbOne "tok1" = some 1 ∧
      statusOf (confirm ⟨true, true⟩ (confirm ⟨true, true⟩ dbOne (some "tok1")).2
          (some "tok1")).2 1 = some "confirmed" :=
  ⟨by decide, (confirm_idempotent dbOne "tok1" 1 (by decide) (by decide)).2.2.2⟩

/-- C10: when the token lookup yields a subscriber id with no subscriptions
row, confirm still returns 200 — the zero-row UPDATE is treated as success —
and the stored state is unchanged, indistinguishable at the HTTP interface
from an actual confirmation. -/
theorem confirm_dangling_token_ok (db : Db) (tok : String) (id : Nat)
    (hl : get_subscriber_id_from_token db tok = some id)
    (hnone : db.subscriptions.find? (fun r => r.id == id) = none) :
    (confirm ⟨true, true⟩ db (some tok)).1 = 200 ∧
      (confirm ⟨true, true⟩ db (some tok)).2 = db := by
  have hall : ∀ r ∈ db.subscriptions, (r.id == id) = false := by
    intro r hr
    have := List.find?_eq_none.mp hnone r hr
    simpa using this
  have e : confirm ⟨true, true⟩ db (some tok) = (200, confirm_subscriber db id) := by
    simp [confirm, hl]
  constructor
  · rw [e]
  · rw [e]
    show confirm_subscriber db id = db
    simp only [confirm_subscriber]
    rw [map_confirm_no_match id db.subscriptions hall]

/-- Witness for C10 at the concrete database `dbDangling`, whose token "tok7"
points at subscriber id 7 although no subscriptions row with id 7 exists. -/
theorem confirm_dangling_token_ok_witness :
    (confirm ⟨true, true⟩ dbDangling (some "tok7")).1 = 200 ∧
      (confirm ⟨true, true⟩ dbDangling (some "tok7")).2 = dbDangling :=
  confirm_dangling_token_ok dbDangling "tok7" 7 (by decide) (by decide)

/-- C3: `SubscriberName::parse` succeeds exactly on strings that are non-empty
after trimming, whose grapheme count is at most 256, and that contain none of
the characters / ( ) " < > backslash or braces; on all other inputs it returns
a descriptive error value (the model is a total pure function, so there is no
panic and no side effect). -/
theorem subscriberName_parse_ok_iff (gcount : String → Nat) (s : String) :
    (SubscriberName.parse gcount s).isOk = true ↔
      ((trimChars s.data).isEmpty = false ∧ gcount s ≤ 256 ∧
        s.data.any (fun c => forbidden_characters.contains c) = false) := by
  simp only [SubscriberName.parse]
  generalize hb1 : (trimChars s.data).isEmpty = b1
  generalize hb3 : s.data.any (fun c => forbidden_characters.contains c) = b3
  cases hb2 : decide (256 < gcount s) <;> cases b1 <;> cases b3 <;>
    simp [Except.isOk, Except.toBool] at hb2 ⊢ <;>
    omega

/-- C9: a successful `SubscriberName::parse` stores the raw input string
unchanged — `as_ref` reads back exactly the input, with no trimming or
normalization — and the 256-grapheme limit is counted on the untrimmed input,
so leading/trailing whitespace counts toward the limit. -/
theorem subscriberName_parse_raw_untrimmed (gcount : String → Nat) (s : String) :
    (∀ n, SubscriberName.parse gcount s = Except.ok n → n.as_ref = s) ∧
    (256 < gcount s → (SubscriberName.parse gcount s).isOk = false) := by
  constructor
  · intro n hn
    simp only [SubscriberName.parse] at hn
    split at hn
    · cases hn
    · cases hn
      rfl
  · intro h
    simp [SubscriberName.parse, h, Except.isOk, Except.toBool]

set_option maxRecDepth 10000 in
/-- Witness for C9: on the concrete 257-character input `name257sp` (whose
trimmed form has only 256 characters), counting characters as graphemes, the
length hypothesis holds and parsing fails. -/
theorem subscriberName_parse_raw_untrimmed_witness :
    256 < String.length name257sp ∧
      (SubscriberName.parse String.length name257sp).isOk = false :=
  ⟨by decide, (subscriberName_parse_raw_untrimmed String.length name257sp).2 (by decide)⟩

/-- C8 as stated is refuted at status 304: the response is not 2xx, yet
`send_email` returns success, because `error_for_status` only errors for
status codes greater than or equal to 400 (src/src/email_client.rs line 70). -/
theorem send_email_non2xx_counterexample :
    ¬(200 ≤ 304 ∧ 304 < 300) ∧
      (exClient.send_email (fun _ => HttpOutcome.response 304) "to@example.com"
          "subject" "text" "html").2 = Except.ok () := by
  constructor
  · omega
  · rfl

/-- C8 amended: `send_email` fails exactly when the send itself fails
(timeout or transport error) or the response status code is at least 400, and
succeeds for every status below 400 — in particular for every 2xx response. -/
theorem send_email_failure_iff (c : EmailClient) (out : HttpOutcome)
    (dst subj tb hb : String) :
    ((c.send_email (fun _ => out) dst subj tb hb).2.isOk = true ↔
      ∃ s, out = HttpOutcome.response s ∧ s < 400) := by
  cases out with
  | sendFailure => simp [EmailClient.send_email, Except.isOk, Except.toBool]
  | response s =>
    by_cases h : 400 ≤ s <;>
      (simp [EmailClient.send_email, Except.isOk, Except.toBool, h]
       try omega)

/-- C1 fails on the code: on a successful authenticated publish to one
confirmed subscriber, the dispatched payload carries `content.html` in
`TextBody` and `content.text` in `HtmlBody`, because `publish_newsletter`
passes `body.content.html` to the third parameter of `send_email` (which
serializes as TextBody) and `body.content.text` to the fourth (HtmlBody) —
the opposite of the claim. -/
theorem publish_swaps_text_and_html :
    (publish_newsletter envAccept (fun _ => true) exClient
        (fun _ => HttpOutcome.response 200) dbConfirmed exB64
        (some "Basic Ym9iOnB3") exBody).1 = Except.ok () ∧
    exBody.content.html = "<p>Hello</p>" ∧ exBody.content.text = "Hello" ∧
    ((publish_newsletter envAccept (fun _ => true) exClient
        (fun _ => HttpOutcome.response 200) dbConfirmed exB64
        (some "Basic Ym9iOnB3") exBody).2.map
          (fun r => (r.body.TextBody, r.body.HtmlBody)))
      = [("<p>Hello</p>", "Hello")] := by
  refine ⟨rfl, rfl, rfl, rfl⟩

/-- C7: every authentication failure of publish — missing or malformed
Authorization header (any `basic_authentication` error), unknown username, or
wrong password — produces the same `AuthError` variant; `error_response` maps
`AuthError` to 401 carrying `WWW-Authenticate: Basic realm="publish"`, and
every other publish error (the `UnexpectedError` variant) to 500. -/
theorem publish_auth_uniform (env : AuthEnv) (emailOk : String → Bool)
    (c : EmailClient) (net : HttpRequest → HttpOutcome) (db : Db)
    (b64decode : String → Option String) (authorization : Option String)
    (body : BodyData) :
    (∀ e, basic_authentication b64decode authorization = Except.error e →
      (publish_newsletter env emailOk c net db b64decode authorization body).1
        = Except.error (PublishError.AuthError e)) ∧
    (∀ creds, basic_authentication b64decode authorization = Except.ok creds →
      env.stored_credentials creds.username = Except.ok none →
      (publish_newsletter env emailOk c net db b64decode authorization body).1
        = Except.error (PublishError.AuthError "Unknown username.")) ∧
    (∀ creds uid phc, basic_authentication b64decode authorization = Except.ok creds →
      env.stored_credentials creds.username = Except.ok (some (uid, phc)) →
      env.spawn_ok = true → env.phc_parse_ok phc = true →
      env.verify phc creds.password = false →
      (publish_newsletter env emailOk c net db b64decode authorization body).1
        = Except.error (PublishError.AuthError "Invalid password")) ∧
    (∀ msg, (PublishError.AuthError msg).error_response
        = (401, [("WWW-Authenticate", "Basic realm=\"publish\"")])) ∧
    (∀ pe : PublishError,
      (∃ msg, pe = PublishError.AuthError msg) ∨ pe.error_response.1 = 500) := by
  refine ⟨?_, ?_, ?_, ?_, ?_⟩
  · intro e he
    simp [publish_newsletter, he]
  · intro creds hok hstored
    simp [publish_newsletter, hok, validate_credentials, hstored]
  · intro creds uid phc hok hstored hspawn hphc hver
    simp [publish_newsletter, hok, validate_credentials, hstored, hspawn,
      verify_password_hash, hphc, hver]
  · intro msg
    rfl
  · intro pe
    cases pe with
    | AuthError m => exact Or.inl ⟨m, rfl⟩
    | UnexpectedError m => exact Or.inr rfl

/-- Witness for C7: against an empty users table, concrete well-formed Basic
credentials are rejected with the unknown-username `AuthError`. -/
theorem publish_auth_uniform_witness :
    basic_authentication exB64 (some "Basic Ym9iOnB3") = Except.ok ⟨"bob", "pw"⟩ ∧
      (publish_newsletter envNoUser (fun _ => true) exClient
          (fun _ => HttpOutcome.response 200) dbConfirmed exB64
          (some "Basic Ym9iOnB3") exBody).1
        = Except.error (PublishError.AuthError "Unknown username.") :=
  ⟨rfl, (publish_auth_uniform envNoUser (fun _ => true) exClient
      (fun _ => HttpOutcome.response 200) dbConfirmed exB64
      (some "Basic Ym9iOnB3") exBody).2.1 ⟨"bob", "pw"⟩ rfl rfl⟩

end Zero2Prod
